import Mathlib

/-!
Verification of the risk-triggered workflow orchestrator of the
EY-Automotive repository.

The development shallowly embeds the Python sources:
  * `app/schemas.py`      — pydantic data model (`Telematics`, `PredictedIssue`,
    `VoiceScript`, `AppointmentProposal`, `AppointmentConfirmation`,
    `RCAInsight`, `UEBAEvent`, `UEBAAlert`);
  * `app/ueba.py`         — the `UEBAGuard` audit monitor;
  * `app/graph_nodes.py`  — the LangGraph workflow nodes (`WorkflowNodes`);
  * `app/orchestrator_graph.py` — the graph orchestrator (`MasterAgentGraph`);
  * `app/orchestrator.py` — the non-graph orchestrator (`MasterAgent`);
  * `app/agents/mocks.py` — the `GeminiVoiceAgent` (its audit logging).

Python floats are modelled as rationals (`ℚ`); all float literals of the
source appear as `mkRat` constants (0.8 = `mkRat 4 5`, and so on), which the
kernel can evaluate.  Python dictionaries that serve as the Action Ledger are
modelled as association lists over an inductive `Val` value type, with
Python's `{**d, k: v}` update modelled by `Dict.set`.  Collaborator agents
(analysis, prediction, voice, scheduling, feedback, manufacturing) are pure
oracles supplied as a record of functions, exactly as they are injected in
the constructors of both orchestrator classes.  Each orchestrator run also
returns the list of collaborator methods it invoked, in order — this trace
is instrumentation used to state which collaborators a run does (not) call.
-/

/-- A Python value stored in a ledger/dict: the subset of shapes the
orchestrator actually stores (strings, booleans, numbers, lists, dicts). -/
inductive Val where
  | s : String → Val
  | b : Bool → Val
  | q : ℚ → Val
  | i : Int → Val
  | list : List Val → Val
  | dict : List (String × Val) → Val

/-- A Python `dict` with string keys, as an insertion-ordered association
list — the representation of the Action Ledger and of nested payloads. -/
abbrev Dict := List (String × Val)

/-- `d.get(k)` / `d[k]`: first value bound to `k`, if any. -/
def Dict.get? (d : Dict) (k : String) : Option Val :=
  (d.find? (fun p => p.1 = k)).map (fun p => p.2)

/-- `d.get(k, v0)`: lookup with default. -/
def Dict.getD (d : Dict) (k : String) (v0 : Val) : Val :=
  (Dict.get? d k).getD v0

/-- `{**d, k: v}` (also `d[k] = v`): replace the binding of `k` if present
(keeping its position, as Python dicts do), otherwise append it. -/
def Dict.set (d : Dict) (k : String) (v : Val) : Dict :=
  match d with
  | [] => [(k, v)]
  | (k', v') :: rest =>
      if k' = k then (k, v) :: rest else (k', v') :: Dict.set rest k v

/-- `list(d.keys())`. -/
def Dict.keys (d : Dict) : List String := d.map (fun p => p.1)

/-- `k in d`. -/
def Dict.hasKey (d : Dict) (k : String) : Bool := (Dict.get? d k).isSome

/-- `str.lower()`, char by char (Python's `.lower()` on the ASCII component
names used by the repository). -/
def lowerStr (s : String) : String := String.mk (s.data.map Char.toLower)

/-- `str.upper()`. -/
def upperStr (s : String) : String := String.mk (s.data.map Char.toUpper)

/-- `", ".join(xs)`. -/
def joinComma (xs : List String) : String :=
  match xs with
  | [] => ""
  | x :: rest => rest.foldl (fun acc y => acc ++ ", " ++ y) x

/-- Rational subtraction computed on numerators/denominators; used where the
source subtracts float timestamps, because this form evaluates by `decide`.
`qsub_eq` proves it is ordinary subtraction on `ℚ`. -/
def qsub (a b : ℚ) : ℚ := mkRat (a.num * b.den - b.num * a.den) (a.den * b.den)

theorem qsub_eq (a b : ℚ) : qsub a b = a - b := by
  have ha : (a.den : ℚ) ≠ 0 := by exact_mod_cast a.den_nz
  have hb : (b.den : ℚ) ≠ 0 := by exact_mod_cast b.den_nz
  rw [qsub, Rat.mkRat_eq_div]
  push_cast
  rw [show (a : ℚ) - b = (a.num : ℚ) / (a.den : ℚ) - (b.num : ℚ) / (b.den : ℚ) by
        rw [Rat.num_div_den, Rat.num_div_den],
      div_sub_div _ _ ha hb]
  congr 1
  ring

/- ### Data model (`app/schemas.py`) -/

/-- `Telematics` (schemas.py). The `timestamp` datetime is kept opaque as a
string; floats are rationals. -/
structure Telematics where
  vehicle_id : String
  vehicle_model : String
  timestamp : String
  mileage_km : ℚ
  engine_temp_c : ℚ
  rpm : ℚ
  brake_pad_mm : ℚ
  oil_quality_pct : ℚ
  dtc_codes : List String

/-- `PredictedIssue` (schemas.py), the record after successful validation. -/
structure PredictedIssue where
  vehicle_id : String
  component : String
  risk_score : ℚ
  horizon_days : Int
  days_to_failure : Int
  confidence : ℚ
  rationale : String

/-- The `component` Literal of `PredictedIssue`. -/
def allowedComponents : List String :=
  ["engine", "brakes", "battery", "injector", "coolant", "oil",
   "transmission", "brake_system"]

/-- Constructing a `PredictedIssue`: pydantic validates
`risk_score : Field(ge=0, le=1)`, `confidence : Field(ge=0, le=1)` and the
`component` Literal, rejecting (raising) on violation; `horizon_days : int`
carries no constraint.  `model_post_init` then syncs `days_to_failure` with
`horizon_days` when it was left at its default `0`.  The pydantic defaults
are `days_to_failure = 0` and `confidence = 0.85 = mkRat 17 20`. -/
def mkPredictedIssue (vehicle_id component : String) (risk_score : ℚ)
    (horizon_days days_to_failure : Int) (confidence : ℚ)
    (rationale : String) : Option PredictedIssue :=
  if 0 ≤ risk_score ∧ risk_score ≤ 1 ∧ 0 ≤ confidence ∧ confidence ≤ 1 ∧
      component ∈ allowedComponents then
    some { vehicle_id := vehicle_id
           component := component
           risk_score := risk_score
           horizon_days := horizon_days
           days_to_failure := if days_to_failure = 0 then horizon_days
                              else days_to_failure
           confidence := confidence
           rationale := rationale }
  else none

/-- `issue.model_dump()`. -/
def PredictedIssue.model_dump (p : PredictedIssue) : Val :=
  .dict [("vehicle_id", .s p.vehicle_id), ("component", .s p.component),
         ("risk_score", .q p.risk_score), ("horizon_days", .i p.horizon_days),
         ("days_to_failure", .i p.days_to_failure),
         ("confidence", .q p.confidence), ("rationale", .s p.rationale)]

/-- `VoiceScript` (schemas.py): the Gemini-shaped script plus the legacy
fields that `model_post_init` derives from the script text. -/
structure VoiceScript where
  vehicle_id : String
  script : String
  urgency : String
  estimated_duration_sec : Nat
  openers : String
  summary : String
  recommendation : String
  ask_to_schedule : String

/-- `script.split("\n\n")` — split on the double-newline separator. -/
def splitParagraphs (s : String) : List String := s.splitOn "\n\n"

/-- Constructing a `VoiceScript` the way `GeminiVoiceAgent` does (legacy
fields left at their `""` defaults): `model_post_init` auto-fills them from
the paragraphs of `script` when `openers` is empty and `script` non-empty. -/
def mkVoiceScript (vehicle_id script urgency : String)
    (estimated_duration_sec : Nat) : VoiceScript :=
  let lines := splitParagraphs script
  let fill := script ≠ ""
  { vehicle_id := vehicle_id
    script := script
    urgency := urgency
    estimated_duration_sec := estimated_duration_sec
    openers := if fill then lines.headI else ""
    summary := if fill then lines.getD 1 "" else ""
    recommendation := if fill then lines.getD 2 "" else ""
    ask_to_schedule := if fill then lines.getLastD "" else "" }

/-- `script.model_dump()`. -/
def VoiceScript.model_dump (v : VoiceScript) : Val :=
  .dict [("vehicle_id", .s v.vehicle_id), ("script", .s v.script),
         ("urgency", .s v.urgency),
         ("estimated_duration_sec", .i v.estimated_duration_sec),
         ("openers", .s v.openers), ("summary", .s v.summary),
         ("recommendation", .s v.recommendation),
         ("ask_to_schedule", .s v.ask_to_schedule)]

/-- `AppointmentProposal` (schemas.py). -/
structure AppointmentProposal where
  vehicle_id : String
  options : List String
  center : String

/-- `proposal.model_dump()`. -/
def AppointmentProposal.model_dump (p : AppointmentProposal) : Val :=
  .dict [("vehicle_id", .s p.vehicle_id),
         ("options", .list (p.options.map Val.s)), ("center", .s p.center)]

/-- `AppointmentConfirmation` (schemas.py). -/
structure AppointmentConfirmation where
  vehicle_id : String
  chosen_slot : String
  center : String
  booking_id : String

/-- `confirmation.model_dump()`. -/
def AppointmentConfirmation.model_dump (c : AppointmentConfirmation) : Val :=
  .dict [("vehicle_id", .s c.vehicle_id), ("chosen_slot", .s c.chosen_slot),
         ("center", .s c.center), ("booking_id", .s c.booking_id)]

/-- `RCAInsight` (schemas.py). -/
structure RCAInsight where
  title : String
  summary : String
  actions : List String

/-- `insight.model_dump()`. -/
def RCAInsight.model_dump (r : RCAInsight) : Val :=
  .dict [("title", .s r.title), ("summary", .s r.summary),
         ("actions", .list (r.actions.map Val.s))]

/- ### Audit monitor (`app/ueba.py`) -/

/-- `UEBAEvent` (schemas.py): one logged access. -/
structure UEBAEvent where
  ts : ℚ
  actor : String
  action : String
  resource : String
  details : Dict

/-- `UEBAAlert` (schemas.py): an event wrapped with severity and reason. -/
structure UEBAAlert where
  ts : ℚ
  severity : String
  actor : String
  reason : String
  event : UEBAEvent

/-- The mutable audit state: the two global streams `UEBA_LOG` and
`UEBA_ALERTS` (state.py) and the guard's per-`actor:resource` timestamp
window (`UEBAGuard.window`). -/
structure UEBAState where
  log : List UEBAEvent
  alerts : List UEBAAlert
  window : List (String × List ℚ)

/-- The empty audit state (fresh process). -/
def ueba0 : UEBAState := { log := [], alerts := [], window := [] }

namespace UEBAGuard

/-- `UEBAGuard.ALLOW`: which resources each agent may touch. -/
def ALLOW : List (String × List String) :=
  [("data", ["telematics:read"]),
   ("diagnosis", ["telematics:read", "predictions:write"]),
   ("voice", ["owner:contact", "summary:read"]),
   ("scheduling", ["slots:read", "booking:write"]),
   ("feedback", ["owner:contact", "feedback:write"]),
   ("mfg", ["rca:write", "history:read"]),
   ("master",
    ["telematics:read", "predictions:read", "owner:contact", "slots:read",
     "booking:write", "feedback:write", "rca:write"])]

/-- `self.ALLOW.get(actor, [])`. -/
def allowGet (actor : String) : List String :=
  ((ALLOW.find? (fun p => p.1 = actor)).map (fun p => p.2)).getD []

/-- `self.window.setdefault(key, [])` (read side). -/
def windowGet (w : List (String × List ℚ)) (key : String) : List ℚ :=
  ((w.find? (fun p => p.1 = key)).map (fun p => p.2)).getD []

/-- Store the (possibly trimmed) timestamp list back under `key`. -/
def windowSet (w : List (String × List ℚ)) (key : String) (arr : List ℚ) :
    List (String × List ℚ) :=
  match w with
  | [] => [(key, arr)]
  | (k', v') :: rest =>
      if k' = key then (key, arr) :: rest else (k', v') :: windowSet rest key arr

/-- `arr[-10:]` — keep the last 10 timestamps. -/
def keepLast10 (arr : List ℚ) : List ℚ :=
  if arr.length > 10 then arr.drop (arr.length - 10) else arr

/-- `UEBAGuard.log(actor, action, resource, details)` at wall-clock time
`ts` (the `time.time()` call is externalised as the `ts` argument):
appends the event unconditionally; appends a high-severity alert when the
resource is outside the actor's allow-list; appends the timestamp to the
(actor, resource) sliding window, trims it to the last 10 entries, and
appends a medium-severity alert when more than 5 of the kept timestamps lie
within the last 3 seconds. -/
def log (st : UEBAState) (ts : ℚ) (actor action resource : String)
    (details : Dict) : UEBAState :=
  let ev : UEBAEvent :=
    { ts := ts, actor := actor, action := action, resource := resource,
      details := details }
  let log1 := st.log ++ [ev]
  let alerts1 :=
    if resource ∈ allowGet actor then st.alerts
    else st.alerts ++ [{ ts := ts, severity := "high", actor := actor,
                         reason := "Unauthorized resource: " ++ resource,
                         event := ev : UEBAAlert }]
  let key := actor ++ ":" ++ resource
  let arr := keepLast10 (windowGet st.window key ++ [ts])
  let recent := arr.filter (fun x => qsub ts x ≤ mkRat 3 1)
  let alerts2 :=
    if recent.length > 5 then
      alerts1 ++ [{ ts := ts, severity := "medium", actor := actor,
                    reason := "Spike in actions", event := ev : UEBAAlert }]
    else alerts1
  { log := log1, alerts := alerts2, window := windowSet st.window key arr }

end UEBAGuard

/-- Number of high-severity alerts in a stream. -/
def countHigh (alerts : List UEBAAlert) : Nat :=
  (alerts.filter (fun a => a.severity = "high")).length

/-- Number of medium-severity alerts in a stream. -/
def countMedium (alerts : List UEBAAlert) : Nat :=
  (alerts.filter (fun a => a.severity = "medium")).length

/-- The spike condition of `UEBAGuard.log`, named: after appending `ts` and
trimming to the last 10 entries, more than 5 timestamps of the
(actor, resource) window lie within the last 3 seconds. -/
def spikeCondition (st : UEBAState) (ts : ℚ) (actor resource : String) : Prop :=
  ((UEBAGuard.keepLast10
      (UEBAGuard.windowGet st.window (actor ++ ":" ++ resource) ++ [ts])).filter
    (fun x => qsub ts x ≤ mkRat 3 1)).length > 5

instance (st : UEBAState) (ts : ℚ) (actor resource : String) :
    Decidable (spikeCondition st ts actor resource) := by
  unfold spikeCondition; infer_instance

/- ### Risk classifier -/

namespace MasterAgent

/-- `self.CRITICAL_THRESHOLD = 0.8` (orchestrator.py `__init__`). -/
def CRITICAL_THRESHOLD : ℚ := mkRat 4 5

/-- `self.HIGH_THRESHOLD = 0.6`. -/
def HIGH_THRESHOLD : ℚ := mkRat 3 5

/-- `self.MEDIUM_THRESHOLD = 0.4`. -/
def MEDIUM_THRESHOLD : ℚ := mkRat 2 5

/-- `MasterAgent._classify_risk` (orchestrator.py). -/
def classify_risk (risk_score : ℚ) : String :=
  if risk_score ≥ CRITICAL_THRESHOLD then "CRITICAL"
  else if risk_score ≥ HIGH_THRESHOLD then "HIGH"
  else if risk_score ≥ MEDIUM_THRESHOLD then "MEDIUM"
  else "LOW"

end MasterAgent

namespace WorkflowNodes

/-- `WorkflowNodes._classify_risk` (graph_nodes.py); thresholds inlined as
0.8 / 0.6 / 0.4 in the source. -/
def classify_risk (risk_score : ℚ) : String :=
  if risk_score ≥ mkRat 4 5 then "CRITICAL"
  else if risk_score ≥ mkRat 3 5 then "HIGH"
  else if risk_score ≥ mkRat 2 5 then "MEDIUM"
  else "LOW"

end WorkflowNodes

/-- The ascending order of the `RiskTier` enumeration.  Modelled from the
spec: §3 declares the tier strings totally ordered LOW < MEDIUM < HIGH <
CRITICAL; the code itself only manipulates the strings. -/
def tierRank (tier : String) : Nat :=
  if tier = "CRITICAL" then 3
  else if tier = "HIGH" then 2
  else if tier = "MEDIUM" then 1
  else 0

/- ### RCA action generator -/

/-- The `component_actions` lookup table shared verbatim by
`WorkflowNodes._generate_rca_actions` (graph_nodes.py) and
`MasterAgent._generate_rca_actions` (orchestrator.py). -/
def component_actions : List (String × List String) :=
  [("transmission",
    ["Review transmission fluid supplier quality",
     "Check clutch pack torque specifications",
     "Analyze gear wear patterns across fleet"]),
   ("brake_system",
    ["Inspect brake pad material batch",
     "Review hydraulic pressure calibration",
     "Check ABS sensor correlation"]),
   ("engine",
    ["Analyze oil quality and intervals",
     "Review ECU software version",
     "Check turbocharger supplier quality"]),
   ("battery",
    ["Review charging cycle patterns",
     "Check BMS firmware version",
     "Analyze temperature exposure"])]

/-- The component-keyed base list: the three fixed actions of a known
component, or the two generic actions naming the component otherwise
(`comp_key = issue.component.lower()`). -/
def rcaBaseActions (component : String) : List String :=
  match component_actions.find? (fun p => p.1 = lowerStr component) with
  | some p => p.2
  | none => ["Investigate " ++ component ++ " supplier",
             "Review " ++ component ++ " assembly procedures"]

/-- `WorkflowNodes._generate_rca_actions(issue, anomalies, severity)`
(graph_nodes.py): base actions for `issue.component`; when the severity —
here the upper-case `risk_level` — equals `"CRITICAL"`, an urgent-bulletin
action is inserted at index 0 and an emergency-fleet-inspection action
appended; an update-predictive-model action is always appended last.  The
`anomalies` argument is unused by the source. -/
def generate_rca_actions_nodes (component : String) (severity : String) :
    List String :=
  let base := rcaBaseActions component
  let withCritical :=
    if severity = "CRITICAL" then
      "URGENT: Issue service bulletin" :: (base ++ ["Emergency fleet inspection"])
    else base
  withCritical ++ ["Update predictive model with case"]

/-- `MasterAgent._generate_rca_actions(issue, anomalies, severity)`
(orchestrator.py): identical except that the severity strings it is called
with — and compares against — are lower-case (`"critical"`). -/
def generate_rca_actions_master (component : String) (severity : String) :
    List String :=
  let base := rcaBaseActions component
  let withCritical :=
    if severity = "critical" then
      "URGENT: Issue service bulletin" :: (base ++ ["Emergency fleet inspection"])
    else base
  withCritical ++ ["Update predictive model with case"]

/- ### Workflow state and collaborators -/

/-- `AgentState` (graph_state.py): the record threaded through the graph.
`actions` is the Action Ledger.  `voice_script`, `appointment_proposal` and
`appointment_confirmed` hold `model_dump` payloads in the source and are
stored here in their typed form (the pydantic dump/reconstruct round trips
`VoiceScript(**dump)` and `AppointmentProposal(**dump)` are identities). -/
structure AgentState where
  telematics : Telematics
  analysis : Option Dict
  issue : Option PredictedIssue
  risk_level : Option String
  voice_script : Option VoiceScript
  customer_accepted : Option Bool
  appointment_proposal : Option AppointmentProposal
  appointment_confirmed : Option AppointmentConfirmation
  feedback_requested : Option Bool
  rca_submitted : Option Bool
  actions : Dict
  errors : List String

/-- The six injected collaborator agents (clients.py interfaces), as pure
oracles: `analyze`, `predict`, `craft_script`, `call_owner`, `propose`,
`confirm`, `request_feedback`, `submit_rca`. -/
structure Collaborators where
  analyze : Telematics → Dict
  predict : Telematics → PredictedIssue
  craft_script : PredictedIssue → Telematics → VoiceScript
  call_owner : String → VoiceScript → Bool
  propose : String → AppointmentProposal
  confirm : String → String → AppointmentConfirmation
  request_feedback : String → String → Val
  submit_rca : RCAInsight → Bool

/-- `anomalies = state.get("analysis", {}).get("anomalies", {})` and
`list(anomalies.keys())`: the anomaly names of an analysis payload. -/
def anomalyKeys (analysis : Option Dict) : List String :=
  match Dict.get? (analysis.getD []) "anomalies" with
  | some (.dict d) => Dict.keys d
  | _ => []

/-- The `RCAInsight` summary text assembled by both `submit_rca` variants
(string formatting such as `:.2f` is flattened to `toString`). -/
def rcaSummary (t : Telematics) (issue : PredictedIssue)
    (anomaly_keys : List String) : String :=
  "Vehicle " ++ t.vehicle_id ++ " (" ++ t.vehicle_model ++ ") shows " ++
  issue.component ++ " risk " ++ toString issue.risk_score ++
  ". Anomalies: " ++ (if anomaly_keys = [] then "None"
                      else joinComma anomaly_keys) ++
  ". Days to failure: " ++ toString issue.days_to_failure ++
  ". Mileage: " ++ toString t.mileage_km ++ "km."

instance : Inhabited PredictedIssue :=
  ⟨{ vehicle_id := "", component := "", risk_score := 0, horizon_days := 0,
     days_to_failure := 0, confidence := 0, rationale := "" }⟩

instance : Inhabited VoiceScript :=
  ⟨{ vehicle_id := "", script := "", urgency := "",
     estimated_duration_sec := 0, openers := "", summary := "",
     recommendation := "", ask_to_schedule := "" }⟩

instance : Inhabited AppointmentProposal :=
  ⟨{ vehicle_id := "", options := [], center := "" }⟩

instance : Inhabited AppointmentConfirmation :=
  ⟨{ vehicle_id := "", chosen_slot := "", center := "", booking_id := "" }⟩

/- ### Workflow nodes (`app/graph_nodes.py`) -/

namespace WorkflowNodes

/-- `WorkflowNodes.analyze_telematics` (node 1).  Each node returns the new
state together with the list of collaborator calls it performed. -/
def analyze_telematics (c : Collaborators) (s : AgentState) :
    AgentState × List String :=
  let analysis := c.analyze s.telematics
  ({ s with analysis := some analysis,
            actions := Dict.set s.actions "analysis" (.dict analysis) },
   ["analyze"])

/-- `WorkflowNodes.predict_failure` (node 2). -/
def predict_failure (c : Collaborators) (s : AgentState) :
    AgentState × List String :=
  let issue := c.predict s.telematics
  let risk_level := classify_risk issue.risk_score
  ({ s with issue := some issue,
            risk_level := some risk_level,
            actions := Dict.set (Dict.set s.actions "issue" issue.model_dump)
                         "risk_level" (.s risk_level) },
   ["predict"])

/-- `WorkflowNodes.craft_voice_script` (node 3).  Note that it rebinds the
ledger's `"voice"` key to a fresh one-entry dict. -/
def craft_voice_script (c : Collaborators) (s : AgentState) :
    AgentState × List String :=
  let script := c.craft_script (s.issue.getD default) s.telematics
  ({ s with voice_script := some script,
            actions := Dict.set s.actions "voice"
                         (.dict [("script", script.model_dump)]) },
   ["craft_script"])

/-- `WorkflowNodes.call_customer` (node 4): merges `accepted` and `urgency`
into the existing `"voice"` sub-dict. -/
def call_customer (c : Collaborators) (s : AgentState) :
    AgentState × List String :=
  let script := (s.voice_script).getD default
  let accepted := c.call_owner s.telematics.vehicle_id script
  let voice0 := match Dict.getD s.actions "voice" (.dict []) with
                | .dict d => d
                | _ => []
  ({ s with customer_accepted := some accepted,
            actions := Dict.set s.actions "voice"
              (.dict (Dict.set (Dict.set voice0 "accepted" (.b accepted))
                       "urgency" (.s (s.risk_level.getD "")))) },
   ["call_owner"])

/-- `WorkflowNodes.propose_appointment` (node 5): records the proposal in
the state only (the ledger is untouched by this node). -/
def propose_appointment (c : Collaborators) (s : AgentState) :
    AgentState × List String :=
  let proposal := c.propose s.telematics.vehicle_id
  ({ s with appointment_proposal := some proposal }, ["propose"])

/-- `WorkflowNodes.confirm_appointment` (node 6): with at least one option,
confirms the first option and records the `"scheduling"` entry with
`auto_scheduled = (risk_level == "CRITICAL") and not customer_accepted`;
with zero options it returns the state unchanged. -/
def confirm_appointment (c : Collaborators) (s : AgentState) :
    AgentState × List String :=
  let proposal := (s.appointment_proposal).getD default
  match proposal.options with
  | [] => (s, [])
  | chosen :: _ =>
      let confirmation := c.confirm s.telematics.vehicle_id chosen
      let is_critical := s.risk_level.getD "" = "CRITICAL"
      let auto_scheduled := is_critical ∧ ¬ (s.customer_accepted.getD false)
      ({ s with appointment_confirmed := some confirmation,
                actions := Dict.set s.actions "scheduling"
                  (.dict [("proposal", proposal.model_dump),
                          ("confirmation", confirmation.model_dump),
                          ("priority", .s (lowerStr (s.risk_level.getD ""))),
                          ("auto_scheduled", .b (decide auto_scheduled))]) },
       ["confirm"])

/-- `WorkflowNodes.request_feedback` (node 7): only acts when a
confirmation exists. -/
def request_feedback (c : Collaborators) (s : AgentState) :
    AgentState × List String :=
  match s.appointment_confirmed with
  | some confirmation =>
      let feedback := c.request_feedback confirmation.booking_id
                        s.telematics.vehicle_id
      ({ s with feedback_requested := some true,
                actions := Dict.set s.actions "feedback" feedback },
       ["request_feedback"])
  | none => (s, [])

/-- `WorkflowNodes.submit_rca` (node 8). -/
def submit_rca (c : Collaborators) (s : AgentState) :
    AgentState × List String :=
  let anomaly_keys := anomalyKeys s.analysis
  let t := s.telematics
  let issue := s.issue.getD default
  let insight : RCAInsight :=
    { title := "[" ++ s.risk_level.getD "" ++ "] " ++ issue.component ++
               " alerts - " ++ t.vehicle_model
      summary := rcaSummary t issue anomaly_keys
      actions := generate_rca_actions_nodes issue.component
                   (s.risk_level.getD "") }
  let _ := c.submit_rca insight
  ({ s with rca_submitted := some true,
            actions := Dict.set s.actions "rca" insight.model_dump },
   ["submit_rca"])

/-- `WorkflowNodes.log_low_risk`. -/
def log_low_risk (_c : Collaborators) (s : AgentState) :
    AgentState × List String :=
  ({ s with actions := Dict.set s.actions "voice"
              (.dict [("accepted", .b false),
                      ("reason", .s "Risk below engagement threshold")]) },
   [])

end WorkflowNodes

/- ### Graph orchestrator (`app/orchestrator_graph.py`) -/

namespace MasterAgentGraph

/-- `MasterAgentGraph._route_by_risk`. -/
def route_by_risk (s : AgentState) : String :=
  let risk_level := s.risk_level.getD ""
  if risk_level = "CRITICAL" then "critical"
  else if risk_level = "HIGH" then "high"
  else if risk_level = "MEDIUM" then "medium"
  else "low"

/-- `MasterAgentGraph._route_after_call`. -/
def route_after_call (s : AgentState) : String :=
  let accepted := s.customer_accepted.getD false
  let risk_level := s.risk_level.getD ""
  if risk_level = "CRITICAL" then "schedule"
  else if risk_level = "HIGH" ∧ accepted then "schedule"
  else if risk_level = "HIGH" ∧ ¬ accepted then "rca_only"
  else if risk_level = "MEDIUM" then "end"
  else "end"

/-- The initial `AgentState` built by
`MasterAgentGraph.process_telematics`. -/
def initState (t : Telematics) : AgentState :=
  { telematics := t, analysis := none, issue := none, risk_level := none,
    voice_script := none, customer_accepted := none,
    appointment_proposal := none, appointment_confirmed := none,
    feedback_requested := none, rca_submitted := none,
    actions := [], errors := [] }

open WorkflowNodes in
/-- Executing the compiled graph of `MasterAgentGraph._build_graph` on a
state: entry `analyze` → `predict`; `_route_by_risk` sends `low` to
`log_low_risk` → END and every other tier to `craft_script` →
`call_customer`; `_route_after_call` then selects `propose_appointment` →
`confirm_appointment` → `request_feedback` → `submit_rca` → END
(`"schedule"`), or `submit_rca` → END (`"rca_only"`), or END.  Returns the
final state and the collaborator-call trace. -/
def runGraph (c : Collaborators) (s0 : AgentState) :
    AgentState × List String :=
  let (s1, tr1) := analyze_telematics c s0
  let (s2, tr2) := predict_failure c s1
  if route_by_risk s2 = "low" then
    let (s3, tr3) := log_low_risk c s2
    (s3, tr1 ++ tr2 ++ tr3)
  else
    let (s3, tr3) := craft_voice_script c s2
    let (s4, tr4) := call_customer c s3
    if route_after_call s4 = "schedule" then
      let (s5, tr5) := propose_appointment c s4
      let (s6, tr6) := confirm_appointment c s5
      let (s7, tr7) := request_feedback c s6
      let (s8, tr8) := submit_rca c s7
      (s8, tr1 ++ tr2 ++ tr3 ++ tr4 ++ tr5 ++ tr6 ++ tr7 ++ tr8)
    else if route_after_call s4 = "rca_only" then
      let (s5, tr5) := submit_rca c s4
      (s5, tr1 ++ tr2 ++ tr3 ++ tr4 ++ tr5)
    else
      (s4, tr1 ++ tr2 ++ tr3 ++ tr4)

/-- `MasterAgentGraph.process_telematics`: run the graph from the initial
state; the caller receives `final_state["actions"]` (we return the state and
the trace; the per-vehicle `VEHICLE_STATE` store is outside the claims). -/
def process_telematics (c : Collaborators) (t : Telematics) :
    AgentState × List String :=
  runGraph c (initState t)

end MasterAgentGraph

/- ### Non-graph orchestrator (`app/orchestrator.py`) -/

namespace MasterAgent

/-- `MasterAgent._submit_rca`: builds the `RCAInsight` (severity upper-cased
into the title) and records it under the ledger's `"rca"` key.  Returns the
updated ledger; the manufacturing call itself has no observable result. -/
def submit_rca_entry (c : Collaborators) (t : Telematics)
    (issue : PredictedIssue) (analysis : Dict) (actions : Dict)
    (severity : String) : Dict :=
  let anomaly_keys := anomalyKeys (some analysis)
  let insight : RCAInsight :=
    { title := "[" ++ upperStr severity ++ "] " ++ issue.component ++
               " alerts - " ++ t.vehicle_model
      summary := rcaSummary t issue anomaly_keys
      actions := generate_rca_actions_master issue.component severity }
  let _ := c.submit_rca insight
  Dict.set actions "rca" insight.model_dump

/-- `MasterAgent._handle_critical_risk`: voice call, unconditional
scheduling attempt (`auto_scheduled = not accepted`), then RCA with severity
`"critical"`. -/
def handle_critical_risk (c : Collaborators) (t : Telematics)
    (issue : PredictedIssue) (analysis : Dict) (actions : Dict) :
    Dict × List String :=
  let script := c.craft_script issue t
  let accepted := c.call_owner t.vehicle_id script
  let actions1 := Dict.set actions "voice"
    (.dict [("accepted", .b accepted), ("script", script.model_dump),
            ("urgency", .s "critical")])
  let proposal := c.propose t.vehicle_id
  match proposal.options with
  | [] =>
      (submit_rca_entry c t issue analysis actions1 "critical",
       ["craft_script", "call_owner", "propose", "submit_rca"])
  | chosen :: _ =>
      let confirmation := c.confirm t.vehicle_id chosen
      let actions2 := Dict.set actions1 "scheduling"
        (.dict [("proposal", proposal.model_dump),
                ("confirmation", confirmation.model_dump),
                ("priority", .s "critical"),
                ("auto_scheduled", .b (¬ accepted))])
      (submit_rca_entry c t issue analysis actions2 "critical",
       ["craft_script", "call_owner", "propose", "confirm", "submit_rca"])

/-- `MasterAgent._handle_high_risk`: voice call; when accepted and the
proposal has options, schedule, request feedback and submit the RCA; when
declined, only set `voice["follow_up_required"] = True` (no RCA). -/
def handle_high_risk (c : Collaborators) (t : Telematics)
    (issue : PredictedIssue) (analysis : Dict) (actions : Dict) :
    Dict × List String :=
  let script := c.craft_script issue t
  let accepted := c.call_owner t.vehicle_id script
  let voiceEntry : Dict :=
    [("accepted", .b accepted), ("script", script.model_dump),
     ("urgency", .s "high")]
  let actions1 := Dict.set actions "voice" (.dict voiceEntry)
  if accepted then
    let proposal := c.propose t.vehicle_id
    match proposal.options with
    | [] => (actions1, ["craft_script", "call_owner", "propose"])
    | chosen :: _ =>
        let confirmation := c.confirm t.vehicle_id chosen
        let actions2 := Dict.set actions1 "scheduling"
          (.dict [("proposal", proposal.model_dump),
                  ("confirmation", confirmation.model_dump)])
        let feedback := c.request_feedback confirmation.booking_id t.vehicle_id
        let actions3 := Dict.set actions2 "feedback" feedback
        (submit_rca_entry c t issue analysis actions3 "high",
         ["craft_script", "call_owner", "propose", "confirm",
          "request_feedback", "submit_rca"])
  else
    (Dict.set actions "voice"
       (.dict (Dict.set voiceEntry "follow_up_required" (.b true))),
     ["craft_script", "call_owner"])

/-- `MasterAgent._handle_medium_risk`: craft the script, record the
notification-sent marker and the monitoring entry; no call is placed. -/
def handle_medium_risk (c : Collaborators) (t : Telematics)
    (issue : PredictedIssue) (_analysis : Dict) (actions : Dict) :
    Dict × List String :=
  let script := c.craft_script issue t
  let actions1 := Dict.set actions "voice"
    (.dict [("notification_sent", .b true), ("script", script.model_dump),
            ("urgency", .s "medium")])
  let actions2 := Dict.set actions1 "monitoring"
    (.dict [("status", .s "active"), ("next_check", .s "24_hours")])
  (actions2, ["craft_script"])

/-- `MasterAgent.process_telematics`: analysis, prediction, ledger
initialisation, then the tier branch on `issue.risk_score` against the
0.8 / 0.6 / 0.4 thresholds.  Returns the final ledger and the
collaborator-call trace. -/
def process_telematics (c : Collaborators) (t : Telematics) :
    Dict × List String :=
  let analysis := c.analyze t
  let issue := c.predict t
  let actions : Dict :=
    [("analysis", .dict analysis), ("issue", issue.model_dump),
     ("risk_level", .s (classify_risk issue.risk_score))]
  let (acts, tr) :=
    if issue.risk_score ≥ CRITICAL_THRESHOLD then
      handle_critical_risk c t issue analysis actions
    else if issue.risk_score ≥ HIGH_THRESHOLD then
      handle_high_risk c t issue analysis actions
    else if issue.risk_score ≥ MEDIUM_THRESHOLD then
      handle_medium_risk c t issue analysis actions
    else
      (Dict.set actions "voice"
         (.dict [("accepted", .b false),
                 ("reason", .s "Risk below engagement threshold")]), [])
  (acts, ["analyze", "predict"] ++ tr)

end MasterAgent

/- ### Gemini voice agent (`app/agents/mocks.py`) -/

/-- Rational addition computed on numerators/denominators (kernel-evaluable
companion of `qsub`); `qadd_eq` proves it is ordinary addition. -/
def qadd (a b : ℚ) : ℚ := mkRat (a.num * b.den + b.num * a.den) (a.den * b.den)

theorem qadd_eq (a b : ℚ) : qadd a b = a + b := by
  have ha : (a.den : ℚ) ≠ 0 := by exact_mod_cast a.den_nz
  have hb : (b.den : ℚ) ≠ 0 := by exact_mod_cast b.den_nz
  rw [qadd, Rat.mkRat_eq_div]
  push_cast
  rw [show (a : ℚ) + b = (a.num : ℚ) / (a.den : ℚ) + (b.num : ℚ) / (b.den : ℚ) by
        rw [Rat.num_div_den, Rat.num_div_den],
      div_add_div _ _ ha hb]
  congr 1
  ring

namespace GeminiVoiceAgent

/-- `GeminiVoiceAgent._determine_urgency`. -/
def determine_urgency (risk_score : ℚ) : String :=
  if risk_score ≥ mkRat 4 5 then "critical"
  else if risk_score ≥ mkRat 3 5 then "high"
  else if risk_score ≥ mkRat 2 5 then "medium"
  else "low"

/-- `str.split()` — whitespace split, discarding empty pieces. -/
def pyWords (s : String) : List String :=
  (s.split Char.isWhitespace).filter (fun w => w ≠ "")

/-- `GeminiVoiceAgent._estimate_duration`: `int((words / 150) * 60)` —
truncation of a non-negative value, i.e. the floor `(words * 60) / 150`. -/
def estimate_duration (script : String) : Nat :=
  ((pyWords script).length * 60) / 150

/-- `GeminiVoiceAgent._fallback_script`: risk-dependent greeting and
urgency wording, then the templated body interpolating the component and
the days-to-failure estimate.  The trailing fixed marketing paragraphs of
the template carry no data and are abbreviated to a marker; no verified
property depends on the script text. -/
def fallback_script (issue : PredictedIssue) : String :=
  let greeting :=
    if issue.risk_score ≥ mkRat 4 5 then
      "Hello, this is your vehicle care team with an urgent safety notification."
    else if issue.risk_score ≥ mkRat 3 5 then
      "Hi, this is your vehicle care team reaching out about an important maintenance alert."
    else
      "Hello, this is your vehicle care team with a proactive maintenance update."
  let urgency :=
    if issue.risk_score ≥ mkRat 4 5 then "critical safety"
    else if issue.risk_score ≥ mkRat 3 5 then "important maintenance"
    else "preventive maintenance"
  greeting ++ "\n\nOur advanced monitoring system has detected that your " ++
  issue.component ++ " needs attention. This is a " ++ urgency ++
  " issue with approximately " ++ toString issue.days_to_failure ++
  " days before it could become a serious problem." ++
  "\n\n[remaining fixed paragraphs of the fallback template]"

/-- The agent's external effects, fixed at construction: whether Gemini
initialised (`gemini_available`), the text its generation call would return,
the upcoming `time.time()` readings and `random.random()` draws. -/
structure Agent where
  gemini_available : Bool
  gemini_text : PredictedIssue → Telematics → String

/-- A voice-side world: the audit state plus the pending `time.time()`
readings and `random.random()` draws consumed by the agent. -/
structure VoiceWorld where
  ueba : UEBAState
  clock : List ℚ
  rands : List ℚ

/-- Pop the next `time.time()` reading. -/
def popTs (w : VoiceWorld) : ℚ × VoiceWorld :=
  match w.clock with
  | [] => (0, w)
  | t :: rest => (t, { w with clock := rest })

/-- Pop the next `random.random()` draw. -/
def popRand (w : VoiceWorld) : ℚ × VoiceWorld :=
  match w.rands with
  | [] => (0, w)
  | r :: rest => (r, { w with rands := rest })

/-- `GeminiVoiceAgent.craft_script`: logs `("voice", "read", "issue:read")`
unconditionally; with Gemini available the successful generation also logs
`("voice", "action", "gemini:generate")`; the fallback path generates
locally without a second log.  Returns the constructed `VoiceScript`. -/
def craft_script (g : Agent) (w : VoiceWorld) (issue : PredictedIssue)
    (telematics : Telematics) : VoiceWorld × VoiceScript :=
  let (ts, w1) := popTs w
  let w2 := { w1 with
    ueba := UEBAGuard.log w1.ueba ts "voice" "read" "issue:read"
              [("component", .s issue.component)] }
  if g.gemini_available then
    let text := g.gemini_text issue telematics
    let (ts2, w3) := popTs w2
    let w4 := { w3 with
      ueba := UEBAGuard.log w3.ueba ts2 "voice" "action" "gemini:generate"
                [("component", .s issue.component),
                 ("risk_score", .q issue.risk_score),
                 ("script_length", .i text.length)] }
    (w4, mkVoiceScript "" text (determine_urgency issue.risk_score)
           (estimate_duration text))
  else
    let text := fallback_script issue
    (w2, mkVoiceScript "" text (determine_urgency issue.risk_score)
           (estimate_duration text))

/-- `GeminiVoiceAgent._calculate_acceptance_rate`: urgency-keyed base rate
(0.70 default), +0.05 bonus for long Gemini scripts, capped at 0.95. -/
def calculate_acceptance_rate (g : Agent) (script : VoiceScript) : ℚ :=
  let base_rate :=
    if script.urgency = "critical" then mkRat 9 10
    else if script.urgency = "high" then mkRat 3 4
    else if script.urgency = "medium" then mkRat 3 5
    else if script.urgency = "low" then mkRat 9 20
    else mkRat 7 10
  let rate :=
    if g.gemini_available ∧ script.script.length > 200 then
      qadd base_rate (mkRat 1 20)
    else base_rate
  if rate ≤ mkRat 19 20 then rate else mkRat 19 20

/-- `GeminiVoiceAgent.call_owner`: logs `("voice", "action", "owner:call")`,
simulates acceptance by `random.random() < acceptance_rate`, then logs
`("voice", "action", "call:result")`.  Returns the acceptance boolean. -/
def call_owner (g : Agent) (w : VoiceWorld) (vehicle_id : String)
    (script : VoiceScript) : VoiceWorld × Bool :=
  let (ts, w1) := popTs w
  let w2 := { w1 with
    ueba := UEBAGuard.log w1.ueba ts "voice" "action" "owner:call"
              [("vehicle_id", .s vehicle_id)] }
  let (r, w3) := popRand w2
  let accepted := r < calculate_acceptance_rate g script
  let (ts2, w4) := popTs w3
  let w5 := { w4 with
    ueba := UEBAGuard.log w4.ueba ts2 "voice" "action" "call:result"
              [("vehicle_id", .s vehicle_id), ("accepted", .b accepted),
               ("urgency", .s script.urgency)] }
  (w5, accepted)

end GeminiVoiceAgent

/- ### MasterAgent run with the Gemini voice agent wired in -/

namespace MasterAgent

open GeminiVoiceAgent in
/-- `MasterAgent.process_telematics` as deployed with
`GeminiVoiceAgent` as the voice collaborator (the wiring of the
repository's demo entrypoints), threading the audit state: the master's own
`UEBA.log` calls and the voice agent's logging are performed against the
shared streams; the remaining collaborators are the injected pure oracles.
Returns the final ledger and final voice world. -/
def process_telematics_gemini (g : GeminiVoiceAgent.Agent)
    (c : Collaborators) (t : Telematics) (w : VoiceWorld) :
    Dict × VoiceWorld :=
  let (ts0, w0) := popTs w
  let w0 := { w0 with
    ueba := UEBAGuard.log w0.ueba ts0 "master" "read" "telematics:read"
              [("vehicle_id", .s t.vehicle_id)] }
  let analysis := c.analyze t
  let issue := c.predict t
  let actions : Dict :=
    [("analysis", .dict analysis), ("issue", issue.model_dump),
     ("risk_level", .s (classify_risk issue.risk_score))]
  if issue.risk_score ≥ CRITICAL_THRESHOLD then
    let (ts1, w1) := popTs w0
    let w1 := { w1 with
      ueba := UEBAGuard.log w1.ueba ts1 "master" "decision" "critical_path"
                [("vehicle_id", .s t.vehicle_id),
                 ("component", .s issue.component)] }
    let (w2, script) := GeminiVoiceAgent.craft_script g w1 issue t
    let (w3, accepted) := GeminiVoiceAgent.call_owner g w2 t.vehicle_id script
    let actions1 := Dict.set actions "voice"
      (.dict [("accepted", .b accepted), ("script", script.model_dump),
              ("urgency", .s "critical")])
    let proposal := c.propose t.vehicle_id
    let actions2 :=
      match proposal.options with
      | [] => actions1
      | chosen :: _ =>
          let confirmation := c.confirm t.vehicle_id chosen
          Dict.set actions1 "scheduling"
            (.dict [("proposal", proposal.model_dump),
                    ("confirmation", confirmation.model_dump),
                    ("priority", .s "critical"),
                    ("auto_scheduled", .b (¬ accepted))])
    (submit_rca_entry c t issue analysis actions2 "critical", w3)
  else if issue.risk_score ≥ HIGH_THRESHOLD then
    let (ts1, w1) := popTs w0
    let w1 := { w1 with
      ueba := UEBAGuard.log w1.ueba ts1 "master" "decision" "high_risk_path"
                [("vehicle_id", .s t.vehicle_id),
                 ("component", .s issue.component)] }
    let (w2, script) := GeminiVoiceAgent.craft_script g w1 issue t
    let (w3, accepted) := GeminiVoiceAgent.call_owner g w2 t.vehicle_id script
    let voiceEntry : Dict :=
      [("accepted", .b accepted), ("script", script.model_dump),
       ("urgency", .s "high")]
    let actions1 := Dict.set actions "voice" (.dict voiceEntry)
    if accepted then
      let proposal := c.propose t.vehicle_id
      match proposal.options with
      | [] => (actions1, w3)
      | chosen :: _ =>
          let confirmation := c.confirm t.vehicle_id chosen
          let actions2 := Dict.set actions1 "scheduling"
            (.dict [("proposal", proposal.model_dump),
                    ("confirmation", confirmation.model_dump)])
          let feedback := c.request_feedback confirmation.booking_id
                            t.vehicle_id
          let actions3 := Dict.set actions2 "feedback" feedback
          (submit_rca_entry c t issue analysis actions3 "high", w3)
    else
      (Dict.set actions "voice"
         (.dict (Dict.set voiceEntry "follow_up_required" (.b true))), w3)
  else if issue.risk_score ≥ MEDIUM_THRESHOLD then
    let (ts1, w1) := popTs w0
    let w1 := { w1 with
      ueba := UEBAGuard.log w1.ueba ts1 "master" "decision" "medium_risk_path"
                [("vehicle_id", .s t.vehicle_id),
                 ("component", .s issue.component)] }
    let (w2, script) := GeminiVoiceAgent.craft_script g w1 issue t
    let actions1 := Dict.set actions "voice"
      (.dict [("notification_sent", .b true), ("script", script.model_dump),
              ("urgency", .s "medium")])
    let actions2 := Dict.set actions1 "monitoring"
      (.dict [("status", .s "active"), ("next_check", .s "24_hours")])
    (actions2, w2)
  else
    (Dict.set actions "voice"
       (.dict [("accepted", .b false),
               ("reason", .s "Risk below engagement threshold")]), w0)

end MasterAgent

/- ### Helper lemmas -/

theorem Dict.keys_set_mem (d : Dict) (k k' : String) (v : Val) :
    k ∈ Dict.keys d → k ∈ Dict.keys (Dict.set d k' v) := by
  induction d with
  | nil => intro h; simp [Dict.keys] at h
  | cons p rest ih =>
      intro h
      obtain ⟨pk, pv⟩ := p
      simp only [Dict.keys, List.map_cons, List.mem_cons] at h
      by_cases hk : pk = k'
      · subst hk
        simpa [Dict.set, Dict.keys] using h
      · simp only [Dict.set, if_neg hk, Dict.keys, List.map_cons,
                   List.mem_cons]
        rcases h with h | h
        · exact Or.inl h
        · exact Or.inr (ih h)

theorem tierRank_classify (r : ℚ) :
    tierRank (MasterAgent.classify_risk r) =
      if r ≥ MasterAgent.CRITICAL_THRESHOLD then 3
      else if r ≥ MasterAgent.HIGH_THRESHOLD then 2
      else if r ≥ MasterAgent.MEDIUM_THRESHOLD then 1
      else 0 := by
  unfold MasterAgent.classify_risk
  split_ifs <;> simp [tierRank]

/- ### C3 — risk classifier characterisation and monotonicity -/

/-- C3: for every risk score `r`, `classify(r)` is CRITICAL when r ≥ 0.8,
HIGH when 0.6 ≤ r < 0.8, MEDIUM when 0.4 ≤ r < 0.6 and LOW otherwise;
`classify` is monotonic non-decreasing in `r` under the LOW < MEDIUM < HIGH
< CRITICAL tier order; each threshold belongs to the higher tier; and the
two source copies of the classifier (orchestrator.py and graph_nodes.py)
agree. -/
theorem C3_classifier (r r' : ℚ) :
    (MasterAgent.classify_risk r = "CRITICAL" ↔ r ≥ mkRat 4 5) ∧
    (MasterAgent.classify_risk r = "HIGH" ↔ (mkRat 3 5 ≤ r ∧ r < mkRat 4 5)) ∧
    (MasterAgent.classify_risk r = "MEDIUM" ↔ (mkRat 2 5 ≤ r ∧ r < mkRat 3 5)) ∧
    (MasterAgent.classify_risk r = "LOW" ↔ r < mkRat 2 5) ∧
    (r ≤ r' →
      tierRank (MasterAgent.classify_risk r) ≤
        tierRank (MasterAgent.classify_risk r')) ∧
    WorkflowNodes.classify_risk r = MasterAgent.classify_risk r ∧
    MasterAgent.classify_risk (mkRat 2 5) = "MEDIUM" ∧
    MasterAgent.classify_risk (mkRat 3 5) = "HIGH" ∧
    MasterAgent.classify_risk (mkRat 4 5) = "CRITICAL" := by
  have h23 : (mkRat 2 5 : ℚ) < mkRat 3 5 := by decide
  have h34 : (mkRat 3 5 : ℚ) < mkRat 4 5 := by decide
  refine ⟨?_, ?_, ?_, ?_, ?_, rfl, by decide, by decide, by decide⟩
  · unfold MasterAgent.classify_risk MasterAgent.CRITICAL_THRESHOLD
      MasterAgent.HIGH_THRESHOLD MasterAgent.MEDIUM_THRESHOLD
    split_ifs with hC hH hM <;> simp_all
  · unfold MasterAgent.classify_risk MasterAgent.CRITICAL_THRESHOLD
      MasterAgent.HIGH_THRESHOLD MasterAgent.MEDIUM_THRESHOLD
    split_ifs with hC hH hM <;> simp_all
  · unfold MasterAgent.classify_risk MasterAgent.CRITICAL_THRESHOLD
      MasterAgent.HIGH_THRESHOLD MasterAgent.MEDIUM_THRESHOLD
    split_ifs with hC hH hM <;> simp_all
    first
    | linarith
    | (intro h; linarith)
  · unfold MasterAgent.classify_risk MasterAgent.CRITICAL_THRESHOLD
      MasterAgent.HIGH_THRESHOLD MasterAgent.MEDIUM_THRESHOLD
    split_ifs with hC hH hM <;> simp_all <;> linarith
  · intro hrr
    rw [tierRank_classify, tierRank_classify]
    unfold MasterAgent.CRITICAL_THRESHOLD MasterAgent.HIGH_THRESHOLD
      MasterAgent.MEDIUM_THRESHOLD
    split_ifs <;>
      first
      | omega
      | (exfalso; push_neg at *; linarith)

/-- Witness for C3 at concrete scores: 0.5 ≤ 0.85 is respected by the tier
order, and 0.85 classifies as CRITICAL. -/
theorem C3_classifier_witness :
    tierRank (MasterAgent.classify_risk (mkRat 1 2)) ≤
      tierRank (MasterAgent.classify_risk (mkRat 17 20)) ∧
    MasterAgent.classify_risk (mkRat 17 20) = "CRITICAL" :=
  ⟨(C3_classifier (mkRat 1 2) (mkRat 17 20)).2.2.2.2.1 (by decide),
   ((C3_classifier (mkRat 17 20) 0).1).mpr (by decide)⟩

/- ### C6 — RCA action list structure -/

/-- C6: the RCA action list is the component-keyed base (three fixed
actions for transmission / brake_system / engine / battery, two generic
actions naming the component otherwise), with the urgent-bulletin action
prepended and the emergency-fleet-inspection action appended at CRITICAL
severity, and the update-predictive-model action always last.  For
component "engine" at tier CRITICAL the first element is the
urgent-bulletin action and the last two are the emergency-fleet-inspection
and update-predictive-model actions, in both source variants. -/
theorem C6_rca_actions (component severity : String) :
    (generate_rca_actions_nodes component severity =
       (if severity = "CRITICAL" then
          "URGENT: Issue service bulletin" ::
            (rcaBaseActions component ++ ["Emergency fleet inspection"])
        else rcaBaseActions component) ++
       ["Update predictive model with case"]) ∧
    (lowerStr component ∉ component_actions.map Prod.fst →
       rcaBaseActions component =
         ["Investigate " ++ component ++ " supplier",
          "Review " ++ component ++ " assembly procedures"]) ∧
    rcaBaseActions "transmission" =
      ["Review transmission fluid supplier quality",
       "Check clutch pack torque specifications",
       "Analyze gear wear patterns across fleet"] ∧
    rcaBaseActions "brake_system" =
      ["Inspect brake pad material batch",
       "Review hydraulic pressure calibration",
       "Check ABS sensor correlation"] ∧
    rcaBaseActions "engine" =
      ["Analyze oil quality and intervals",
       "Review ECU software version",
       "Check turbocharger supplier quality"] ∧
    rcaBaseActions "battery" =
      ["Review charging cycle patterns",
       "Check BMS firmware version",
       "Analyze temperature exposure"] ∧
    (generate_rca_actions_nodes component severity).getLast? =
      some "Update predictive model with case" ∧
    generate_rca_actions_nodes "engine" "CRITICAL" =
      ["URGENT: Issue service bulletin",
       "Analyze oil quality and intervals",
       "Review ECU software version",
       "Check turbocharger supplier quality",
       "Emergency fleet inspection",
       "Update predictive model with case"] ∧
    generate_rca_actions_master "engine" "critical" =
      generate_rca_actions_nodes "engine" "CRITICAL" := by
  refine ⟨rfl, ?_, by decide, by decide, by decide, by decide,
          List.getLast?_concat _, by decide, by decide⟩
  intro h
  have hn : component_actions.find? (fun p => p.1 = lowerStr component) =
      none := by
    rw [List.find?_eq_none]
    intro x hx
    simp only [decide_eq_true_eq]
    intro hexq
    exact h (List.mem_map.mpr ⟨x, hx, hexq⟩)
  simp [rcaBaseActions, hn]

/-- Witness for C6 at a component outside the lookup table: the generic
two-action fallback naming the component. -/
theorem C6_rca_actions_witness :
    rcaBaseActions "coolant" =
      ["Investigate coolant supplier", "Review coolant assembly procedures"] :=
  (C6_rca_actions "coolant" "HIGH").2.1 (by decide)

/- ### C7 — audit monitor behaviour -/

/-- A sequence of `UEBAGuard.log` calls by one (actor, resource) pair at
the given timestamps (details empty). -/
def logN (st : UEBAState) (ts : List ℚ) (actor action resource : String) :
    UEBAState :=
  ts.foldl (fun s t => UEBAGuard.log s t actor action resource []) st

/-- C7: every `log` call appends exactly one event unconditionally; it
appends exactly one high-severity unauthorized alert iff the resource is
outside the actor's allow-list, and one medium-severity spike alert iff
more than 5 window timestamps fall within the last 3 seconds — alerts never
suppress the event append.  Concretely: actor "voice" logging "rca:write"
appends exactly one event and one high alert; six calls by
("scheduling", "slots:read") within 1 second append exactly one medium
spike alert, while five such calls append none. -/
theorem C7_audit_monitor (st : UEBAState) (ts : ℚ)
    (actor action resource : String) (details : Dict) :
    (UEBAGuard.log st ts actor action resource details).log =
      st.log ++ [{ ts := ts, actor := actor, action := action,
                   resource := resource, details := details }] ∧
    (UEBAGuard.log st ts actor action resource details).alerts =
      (if resource ∈ UEBAGuard.allowGet actor then st.alerts
       else st.alerts ++
         [{ ts := ts, severity := "high", actor := actor,
            reason := "Unauthorized resource: " ++ resource,
            event := { ts := ts, actor := actor, action := action,
                       resource := resource, details := details } }]) ++
      (if spikeCondition st ts actor resource then
         [{ ts := ts, severity := "medium", actor := actor,
            reason := "Spike in actions",
            event := { ts := ts, actor := actor, action := action,
                       resource := resource, details := details } }]
       else []) ∧
    countHigh (UEBAGuard.log ueba0 0 "voice" "write" "rca:write" []).alerts
      = 1 ∧
    (UEBAGuard.log ueba0 0 "voice" "write" "rca:write" []).log.length = 1 ∧
    countMedium (logN ueba0
      [0, mkRat 1 10, mkRat 2 10, mkRat 3 10, mkRat 4 10, mkRat 5 10]
      "scheduling" "read" "slots:read").alerts = 1 ∧
    countMedium (logN ueba0
      [0, mkRat 1 10, mkRat 2 10, mkRat 3 10, mkRat 4 10]
      "scheduling" "read" "slots:read").alerts = 0 := by
  refine ⟨rfl, ?_, by decide, by decide, by decide, by decide⟩
  unfold UEBAGuard.log spikeCondition
  split_ifs <;> simp_all

/- ### C9 — issue construction invariants (corrected) -/

/-- Counterexample to C9 as stated: pydantic accepts a `PredictedIssue`
with `horizon_days = -1` — construction succeeds and the stored horizon is
negative, so "horizon non-negative" is not an enforced invariant. -/
theorem C9_issue_invariants_counterexample :
    (mkPredictedIssue "VHC-1" "engine" (mkRat 1 2) (-1) 0 (mkRat 17 20)
        "r").isSome = true ∧
    ((mkPredictedIssue "VHC-1" "engine" (mkRat 1 2) (-1) 0 (mkRat 17 20)
        "r").getD default).horizon_days < 0 := by
  decide

/-- C9 (amended): every constructed issue has `risk_score` and `confidence`
in [0,1], and construction with a risk score outside [0,1] is rejected
(fails fast, no clamping); the horizon field is unconstrained. -/
theorem C9_issue_invariants (vid comp : String) (risk : ℚ) (hd dtf : Int)
    (conf : ℚ) (rat : String) :
    (∀ p, mkPredictedIssue vid comp risk hd dtf conf rat = some p →
       0 ≤ p.risk_score ∧ p.risk_score ≤ 1 ∧
       0 ≤ p.confidence ∧ p.confidence ≤ 1) ∧
    (risk < 0 ∨ 1 < risk →
       mkPredictedIssue vid comp risk hd dtf conf rat = none) := by
  unfold mkPredictedIssue
  split_ifs with h hdtf
  · obtain ⟨h1, h2, h3, h4, h5⟩ := h
    refine ⟨?_, ?_⟩
    · intro p hp
      rw [Option.some.injEq] at hp
      subst hp
      exact ⟨h1, h2, h3, h4⟩
    · intro hout
      rcases hout with hlt | hgt <;> exfalso <;> linarith
  · obtain ⟨h1, h2, h3, h4, h5⟩ := h
    refine ⟨?_, ?_⟩
    · intro p hp
      rw [Option.some.injEq] at hp
      subst hp
      exact ⟨h1, h2, h3, h4⟩
    · intro hout
      rcases hout with hlt | hgt <;> exfalso <;> linarith
  · refine ⟨?_, ?_⟩
    · intro p hp
      simp at hp
    · intro _
      rfl

/-- Witness for C9: a risk score of 1.5 is rejected outright. -/
theorem C9_issue_invariants_witness :
    mkPredictedIssue "V" "engine" (mkRat 3 2) 5 0 (mkRat 17 20) "r" = none :=
  (C9_issue_invariants "V" "engine" (mkRat 3 2) 5 0 (mkRat 17 20) "r").2
    (Or.inr (by decide))

/- ### Concrete fixtures for witnesses and counterexamples -/

/-- The demo telemetry sample of `api.py` (`/demo`). -/
def demoTelematics : Telematics :=
  { vehicle_id := "VHC-DEMO", vehicle_model := "Unknown Model",
    timestamp := "2025-01-01T00:00:00", mileage_km := mkRat 58213 1,
    engine_temp_c := mkRat 225 2, rpm := mkRat 4200 1,
    brake_pad_mm := mkRat 7 5, oil_quality_pct := mkRat 22 1,
    dtc_codes := ["P0301"] }

/-- A deterministic collaborator instantiation: prediction with the given
risk score for component "engine", a fixed customer answer, and the given
scheduling options. -/
def demoCollaborators (risk : ℚ) (accepted : Bool) (options : List String) :
    Collaborators :=
  { analyze := fun _ => [("anomalies", .dict [("engine_temp", .dict [])])]
    predict := fun t =>
      { vehicle_id := t.vehicle_id, component := "engine",
        risk_score := risk, horizon_days := 7, days_to_failure := 7,
        confidence := mkRat 17 20, rationale := "engine risk" }
    craft_script := fun _ _ =>
      { vehicle_id := "", script := "demo script", urgency := "high",
        estimated_duration_sec := 30, openers := "", summary := "",
        recommendation := "", ask_to_schedule := "" }
    call_owner := fun _ _ => accepted
    propose := fun vid =>
      { vehicle_id := vid, options := options, center := "EY Auto Service" }
    confirm := fun vid slot =>
      { vehicle_id := vid, chosen_slot := slot, center := "EY Auto Service",
        booking_id := "BK-1" }
    request_feedback := fun bid vid =>
      .dict [("booking_id", .s bid), ("vehicle_id", .s vid)]
    submit_rca := fun _ => true }

/-- A mid-run `AgentState` with a non-empty ledger, for node-level
witnesses. -/
def demoMidState : AgentState :=
  { MasterAgentGraph.initState demoTelematics with
    issue := some ((demoCollaborators (mkRat 17 20) true ["A"]).predict
                     demoTelematics),
    risk_level := some "CRITICAL",
    customer_accepted := some false,
    appointment_proposal :=
      some { vehicle_id := "VHC-DEMO", options := ["A", "B", "C"],
             center := "EY Auto Service" },
    actions := [("analysis", .dict []), ("issue", .dict []),
                ("risk_level", .s "CRITICAL")] }

/- ### C8 — workflow steps only ever add ledger keys -/

/-- C8: every workflow node of graph_nodes.py preserves the top-level keys
already present in the Action Ledger — the resulting `actions` keys are a
superset of the input keys for each of the nine nodes. -/
theorem C8_ledger_keys_monotone (c : Collaborators) (s : AgentState)
    (k : String) (h : k ∈ Dict.keys s.actions) :
    k ∈ Dict.keys (WorkflowNodes.analyze_telematics c s).1.actions ∧
    k ∈ Dict.keys (WorkflowNodes.predict_failure c s).1.actions ∧
    k ∈ Dict.keys (WorkflowNodes.craft_voice_script c s).1.actions ∧
    k ∈ Dict.keys (WorkflowNodes.call_customer c s).1.actions ∧
    k ∈ Dict.keys (WorkflowNodes.propose_appointment c s).1.actions ∧
    k ∈ Dict.keys (WorkflowNodes.confirm_appointment c s).1.actions ∧
    k ∈ Dict.keys (WorkflowNodes.request_feedback c s).1.actions ∧
    k ∈ Dict.keys (WorkflowNodes.submit_rca c s).1.actions ∧
    k ∈ Dict.keys (WorkflowNodes.log_low_risk c s).1.actions := by
  refine ⟨Dict.keys_set_mem _ _ _ _ h,
          Dict.keys_set_mem _ _ _ _ (Dict.keys_set_mem _ _ _ _ h),
          Dict.keys_set_mem _ _ _ _ h,
          Dict.keys_set_mem _ _ _ _ h,
          h, ?_, ?_,
          Dict.keys_set_mem _ _ _ _ h,
          Dict.keys_set_mem _ _ _ _ h⟩
  · unfold WorkflowNodes.confirm_appointment
    cases hopt : ((s.appointment_proposal).getD default).options with
    | nil => simp only [hopt]; exact h
    | cons a l => simp only [hopt]; exact Dict.keys_set_mem _ _ _ _ h
  · unfold WorkflowNodes.request_feedback
    cases hconf : s.appointment_confirmed with
    | none => simp only [hconf]; exact h
    | some cf => simp only [hconf]; exact Dict.keys_set_mem _ _ _ _ h

/-- Witness for C8: a ledger key present before a node survives it (the
`risk_level` key across `confirm_appointment` on a populated state). -/
theorem C8_ledger_keys_monotone_witness :
    "risk_level" ∈ Dict.keys
      (WorkflowNodes.confirm_appointment
        (demoCollaborators (mkRat 17 20) false ["A", "B", "C"])
        demoMidState).1.actions :=
  (C8_ledger_keys_monotone
    (demoCollaborators (mkRat 17 20) false ["A", "B", "C"])
    demoMidState "risk_level" (by decide)).2.2.2.2.2.1

/- ### C5 — first-option confirmation, empty-proposal no-op -/

/-- C5: at the confirmation step, a proposal with options confirms exactly
the proposal's first option (the slot passed to the `confirm` collaborator
is `options[0]`), and a proposal with zero options makes the step a no-op
passthrough returning the state unchanged; the `MasterAgent` critical path
likewise skips the `confirm` call entirely on an empty proposal. -/
theorem C5_confirm_first_option (c : Collaborators) (s : AgentState)
    (prop : AppointmentProposal) (h : s.appointment_proposal = some prop) :
    (prop.options = [] → WorkflowNodes.confirm_appointment c s = (s, [])) ∧
    (prop.options ≠ [] →
       (WorkflowNodes.confirm_appointment c s).1.appointment_confirmed =
         some (c.confirm s.telematics.vehicle_id prop.options.headI) ∧
       (WorkflowNodes.confirm_appointment c s).2 = ["confirm"]) ∧
    (∀ (t : Telematics) (issue : PredictedIssue) (analysis actions : Dict),
       (c.propose t.vehicle_id).options = [] →
       (MasterAgent.handle_critical_risk c t issue analysis actions).2 =
         ["craft_script", "call_owner", "propose", "submit_rca"]) := by
  refine ⟨?_, ?_, ?_⟩
  · intro he
    simp [WorkflowNodes.confirm_appointment, h, he]
  · intro hne
    obtain ⟨a, l, hopt⟩ := List.exists_cons_of_ne_nil hne
    constructor
    · simp [WorkflowNodes.confirm_appointment, h, hopt, List.headI]
    · simp [WorkflowNodes.confirm_appointment, h, hopt]
  · intro t issue analysis actions hopt
    simp [MasterAgent.handle_critical_risk, hopt]

/-- Witness for C5: with options ["A","B","C"] the confirmed slot is "A". -/
theorem C5_confirm_first_option_witness :
    ((WorkflowNodes.confirm_appointment
        (demoCollaborators (mkRat 17 20) false ["A", "B", "C"])
        demoMidState).1.appointment_confirmed.getD default).chosen_slot
      = "A" := by
  have h := ((C5_confirm_first_option
    (demoCollaborators (mkRat 17 20) false ["A", "B", "C"]) demoMidState
    { vehicle_id := "VHC-DEMO", options := ["A", "B", "C"],
      center := "EY Auto Service" } rfl).2.1 (by decide)).1
  rw [h]
  rfl

/- ### C4 — CRITICAL tier always schedules -/

/-- C4: when the tier is CRITICAL, `_route_after_call` returns "schedule"
whatever the customer answered, and a run whose predicted risk score is
≥ 0.8 invokes the `propose` collaborator in both orchestrators — the value
returned by `call_owner` never prevents scheduling at CRITICAL tier. -/
theorem C4_critical_override (s : AgentState) (c : Collaborators)
    (t : Telematics) :
    (s.risk_level = some "CRITICAL" →
       MasterAgentGraph.route_after_call s = "schedule") ∧
    ((c.predict t).risk_score ≥ mkRat 4 5 →
       "propose" ∈ (MasterAgentGraph.process_telematics c t).2 ∧
       "propose" ∈ (MasterAgent.process_telematics c t).2) := by
  constructor
  · intro h
    simp [MasterAgentGraph.route_after_call, h]
  · intro hr
    have hW : WorkflowNodes.classify_risk (c.predict t).risk_score =
        "CRITICAL" := by
      unfold WorkflowNodes.classify_risk
      rw [if_pos hr]
    have hM : MasterAgent.classify_risk (c.predict t).risk_score =
        "CRITICAL" := by
      unfold MasterAgent.classify_risk MasterAgent.CRITICAL_THRESHOLD
      rw [if_pos hr]
    constructor
    · unfold MasterAgentGraph.process_telematics MasterAgentGraph.runGraph
        WorkflowNodes.analyze_telematics WorkflowNodes.predict_failure
        WorkflowNodes.craft_voice_script WorkflowNodes.call_customer
        WorkflowNodes.propose_appointment WorkflowNodes.confirm_appointment
        WorkflowNodes.request_feedback WorkflowNodes.submit_rca
        MasterAgentGraph.route_by_risk MasterAgentGraph.route_after_call
        MasterAgentGraph.initState
      simp [hW]
    · unfold MasterAgent.process_telematics MasterAgent.handle_critical_risk
        MasterAgent.CRITICAL_THRESHOLD
      cases hopt : (c.propose t.vehicle_id).options <;> simp [hopt, hr]

/-- Witness for C4: a risk score of 0.85 schedules in both orchestrators
even though the customer declined. -/
theorem C4_critical_override_witness :
    "propose" ∈ (MasterAgentGraph.process_telematics
        (demoCollaborators (mkRat 17 20) false ["A"]) demoTelematics).2 ∧
    "propose" ∈ (MasterAgent.process_telematics
        (demoCollaborators (mkRat 17 20) false ["A"]) demoTelematics).2 :=
  (C4_critical_override (MasterAgentGraph.initState demoTelematics)
    (demoCollaborators (mkRat 17 20) false ["A"]) demoTelematics).2
    (by decide)

/- ### C1 — HIGH tier, customer declined (corrected) -/

/-- The string stored at a top-level ledger key (`""` when absent or not a
string). -/
def ledgerStr (d : Dict) (k : String) : String :=
  match Dict.get? d k with
  | some (.s x) => x
  | _ => ""

/-- Whether the ledger's `"voice"` sub-dict carries the given key. -/
def voiceFlag (d : Dict) (k : String) : Bool :=
  match Dict.get? d "voice" with
  | some (.dict vd) => Dict.hasKey vd k
  | _ => false

/-- Counterexample to C1 as stated: a graph-orchestrator run at risk 0.7
(tier HIGH) with `call_owner` returning false routes directly to SUBMIT_RCA
and its ledger has an rca entry and no scheduling confirmation — but it
contains no follow-up-required marker, which the claim requires of every
such run. -/
theorem C1_high_declined_counterexample :
    ledgerStr (MasterAgentGraph.process_telematics
        (demoCollaborators (mkRat 7 10) false ["A", "B", "C"])
        demoTelematics).1.actions "risk_level" = "HIGH" ∧
    (MasterAgentGraph.process_telematics
        (demoCollaborators (mkRat 7 10) false ["A", "B", "C"])
        demoTelematics).2 =
      ["analyze", "predict", "craft_script", "call_owner", "submit_rca"] ∧
    Dict.hasKey (MasterAgentGraph.process_telematics
        (demoCollaborators (mkRat 7 10) false ["A", "B", "C"])
        demoTelematics).1.actions "rca" = true ∧
    Dict.hasKey (MasterAgentGraph.process_telematics
        (demoCollaborators (mkRat 7 10) false ["A", "B", "C"])
        demoTelematics).1.actions "scheduling" = false ∧
    voiceFlag (MasterAgentGraph.process_telematics
        (demoCollaborators (mkRat 7 10) false ["A", "B", "C"])
        demoTelematics).1.actions "follow_up_required" = false := by
  decide

/-- C1 (amended): for tier HIGH with `call_owner` returning false, the
graph orchestrator routes directly to SUBMIT_RCA — its ledger gains an rca
entry and no scheduling confirmation, but no follow-up-required marker;
the follow-up-required marker is set by the non-graph `MasterAgent`
orchestrator, which on this path skips scheduling *and* the RCA
submission. -/
theorem C1_high_declined (c : Collaborators) (t : Telematics)
    (h1 : mkRat 3 5 ≤ (c.predict t).risk_score)
    (h2 : (c.predict t).risk_score < mkRat 4 5)
    (hdecl : ∀ v s, c.call_owner v s = false) :
    (MasterAgentGraph.process_telematics c t).2 =
      ["analyze", "predict", "craft_script", "call_owner", "submit_rca"] ∧
    Dict.hasKey (MasterAgentGraph.process_telematics c t).1.actions "rca"
      = true ∧
    Dict.hasKey (MasterAgentGraph.process_telematics c t).1.actions
      "scheduling" = false ∧
    voiceFlag (MasterAgentGraph.process_telematics c t).1.actions
      "follow_up_required" = false ∧
    (MasterAgent.process_telematics c t).2 =
      ["analyze", "predict", "craft_script", "call_owner"] ∧
    voiceFlag (MasterAgent.process_telematics c t).1 "follow_up_required"
      = true ∧
    Dict.hasKey (MasterAgent.process_telematics c t).1 "scheduling"
      = false ∧
    Dict.hasKey (MasterAgent.process_telematics c t).1 "rca" = false := by
  have hnc : ¬((c.predict t).risk_score ≥ mkRat 4 5) := not_le.mpr h2
  have hW : WorkflowNodes.classify_risk (c.predict t).risk_score = "HIGH" := by
    unfold WorkflowNodes.classify_risk
    rw [if_neg hnc, if_pos h1]
  have hM : MasterAgent.classify_risk (c.predict t).risk_score = "HIGH" := by
    unfold MasterAgent.classify_risk MasterAgent.CRITICAL_THRESHOLD
      MasterAgent.HIGH_THRESHOLD
    rw [if_neg hnc, if_pos h1]
  refine ⟨?_, ?_, ?_, ?_, ?_, ?_, ?_, ?_⟩ <;>
  · first
    | (unfold MasterAgentGraph.process_telematics MasterAgentGraph.runGraph
         WorkflowNodes.analyze_telematics WorkflowNodes.predict_failure
         WorkflowNodes.craft_voice_script WorkflowNodes.call_customer
         WorkflowNodes.submit_rca MasterAgentGraph.route_by_risk
         MasterAgentGraph.route_after_call MasterAgentGraph.initState
       simp [hW, hdecl, voiceFlag, ledgerStr, Dict.hasKey, Dict.get?,
             Dict.set, Dict.getD])
    | (unfold MasterAgent.process_telematics MasterAgent.handle_high_risk
         MasterAgent.CRITICAL_THRESHOLD MasterAgent.HIGH_THRESHOLD
       simp [hnc, h1, hdecl, voiceFlag, Dict.hasKey, Dict.get?, Dict.set])

/-- Witness for C1 (amended) at risk 0.7 with a declining customer. -/
theorem C1_high_declined_witness :
    (MasterAgentGraph.process_telematics
        (demoCollaborators (mkRat 7 10) false ["A", "B", "C"])
        demoTelematics).2 =
      ["analyze", "predict", "craft_script", "call_owner", "submit_rca"] ∧
    voiceFlag (MasterAgent.process_telematics
        (demoCollaborators (mkRat 7 10) false ["A", "B", "C"])
        demoTelematics).1 "follow_up_required" = true := by
  have h := C1_high_declined
    (demoCollaborators (mkRat 7 10) false ["A", "B", "C"]) demoTelematics
    (by decide) (by decide) (fun _ _ => rfl)
  exact ⟨h.1, h.2.2.2.2.2.1⟩

/- ### C2 — MEDIUM tier behaviour (corrected) -/

/-- Counterexample to C2 as stated: a graph-orchestrator run at risk 0.5
(tier MEDIUM) *does* invoke the `call_owner` collaborator — the craft →
call edge is unconditional in the graph — and records no notification-sent
marker before ending. -/
theorem C2_medium_counterexample :
    ledgerStr (MasterAgentGraph.process_telematics
        (demoCollaborators (mkRat 1 2) true ["A"])
        demoTelematics).1.actions "risk_level" = "MEDIUM" ∧
    (MasterAgentGraph.process_telematics
        (demoCollaborators (mkRat 1 2) true ["A"]) demoTelematics).2 =
      ["analyze", "predict", "craft_script", "call_owner"] ∧
    voiceFlag (MasterAgentGraph.process_telematics
        (demoCollaborators (mkRat 1 2) true ["A"])
        demoTelematics).1.actions "notification_sent" = false := by
  decide

/-- C2 (amended): the non-graph `MasterAgent` terminates a MEDIUM run after
crafting the script and recording the notification-sent marker, never
invoking `call_owner` and never scheduling; the graph orchestrator instead
does invoke `call_owner` on a MEDIUM run (then ends without scheduling) and
records no notification-sent marker. -/
theorem C2_medium (c : Collaborators) (t : Telematics)
    (h1 : mkRat 2 5 ≤ (c.predict t).risk_score)
    (h2 : (c.predict t).risk_score < mkRat 3 5) :
    (MasterAgent.process_telematics c t).2 =
      ["analyze", "predict", "craft_script"] ∧
    "call_owner" ∉ (MasterAgent.process_telematics c t).2 ∧
    voiceFlag (MasterAgent.process_telematics c t).1 "notification_sent"
      = true ∧
    Dict.hasKey (MasterAgent.process_telematics c t).1 "scheduling"
      = false ∧
    (MasterAgentGraph.process_telematics c t).2 =
      ["analyze", "predict", "craft_script", "call_owner"] ∧
    Dict.hasKey (MasterAgentGraph.process_telematics c t).1.actions
      "scheduling" = false ∧
    Dict.hasKey (MasterAgentGraph.process_telematics c t).1.actions "rca"
      = false ∧
    voiceFlag (MasterAgentGraph.process_telematics c t).1.actions
      "notification_sent" = false := by
  have hnc : ¬((c.predict t).risk_score ≥ mkRat 4 5) := by
    have h34 : (mkRat 3 5 : ℚ) < mkRat 4 5 := by decide
    exact not_le.mpr (lt_trans h2 h34)
  have hnh : ¬((c.predict t).risk_score ≥ mkRat 3 5) := not_le.mpr h2
  have hW : WorkflowNodes.classify_risk (c.predict t).risk_score =
      "MEDIUM" := by
    unfold WorkflowNodes.classify_risk
    rw [if_neg hnc, if_neg hnh, if_pos h1]
  refine ⟨?_, ?_, ?_, ?_, ?_, ?_, ?_, ?_⟩ <;>
  · first
    | (unfold MasterAgent.process_telematics MasterAgent.handle_medium_risk
         MasterAgent.CRITICAL_THRESHOLD MasterAgent.HIGH_THRESHOLD
         MasterAgent.MEDIUM_THRESHOLD
       simp [hnc, hnh, h1, voiceFlag, Dict.hasKey, Dict.get?, Dict.set])
    | (unfold MasterAgentGraph.process_telematics MasterAgentGraph.runGraph
         WorkflowNodes.analyze_telematics WorkflowNodes.predict_failure
         WorkflowNodes.craft_voice_script WorkflowNodes.call_customer
         MasterAgentGraph.route_by_risk MasterAgentGraph.route_after_call
         MasterAgentGraph.initState
       simp [hW, voiceFlag, Dict.hasKey, Dict.get?, Dict.set, Dict.getD])

/-- Witness for C2 (amended) at risk 0.5. -/
theorem C2_medium_witness :
    voiceFlag (MasterAgent.process_telematics
        (demoCollaborators (mkRat 1 2) true ["A"]) demoTelematics).1
      "notification_sent" = true ∧
    "call_owner" ∉ (MasterAgent.process_telematics
        (demoCollaborators (mkRat 1 2) true ["A"]) demoTelematics).2 := by
  have h := C2_medium (demoCollaborators (mkRat 1 2) true ["A"])
    demoTelematics (by decide) (by decide)
  exact ⟨h.2.2.1, h.2.1⟩

/- ### C10 — voice agent raises unauthorized-access alerts -/

theorem log_alerts_mono (st : UEBAState) (ts : ℚ)
    (actor action resource : String) (details : Dict) (a : UEBAAlert)
    (h : a ∈ st.alerts) :
    a ∈ (UEBAGuard.log st ts actor action resource details).alerts := by
  unfold UEBAGuard.log
  dsimp only
  split_ifs <;> simp [h]

theorem log_unauthorized_mem (st : UEBAState) (ts : ℚ)
    (actor action resource : String) (details : Dict)
    (hna : resource ∉ UEBAGuard.allowGet actor) :
    ∃ a ∈ (UEBAGuard.log st ts actor action resource details).alerts,
      a.severity = "high" ∧ a.actor = actor ∧
      a.reason = "Unauthorized resource: " ++ resource := by
  refine ⟨{ ts := ts, severity := "high", actor := actor,
            reason := "Unauthorized resource: " ++ resource,
            event := { ts := ts, actor := actor, action := action,
                       resource := resource, details := details } },
          ?_, rfl, rfl, rfl⟩
  unfold UEBAGuard.log
  dsimp only
  split_ifs with h1 <;> first | exact absurd h1 hna | simp

theorem countHigh_append (l1 l2 : List UEBAAlert) :
    countHigh (l1 ++ l2) = countHigh l1 + countHigh l2 := by
  unfold countHigh
  rw [List.filter_append, List.length_append]

theorem countHigh_log (st : UEBAState) (ts : ℚ)
    (actor action resource : String) (details : Dict) :
    countHigh (UEBAGuard.log st ts actor action resource details).alerts =
      countHigh st.alerts +
        (if resource ∈ UEBAGuard.allowGet actor then 0 else 1) := by
  unfold UEBAGuard.log
  dsimp only
  split_ifs with h1 h2 <;> simp [countHigh_append, countHigh]

namespace GeminiVoiceAgent

theorem popTs_ueba (w : VoiceWorld) : (popTs w).2.ueba = w.ueba := by
  rcases w with ⟨u, clk, rs⟩
  cases clk <;> rfl

theorem popRand_ueba (w : VoiceWorld) : (popRand w).2.ueba = w.ueba := by
  rcases w with ⟨u, clk, rs⟩
  cases rs <;> rfl

theorem craft_script_alerts_mono (g : Agent) (w : VoiceWorld)
    (issue : PredictedIssue) (t : Telematics) (a : UEBAAlert)
    (h : a ∈ w.ueba.alerts) :
    a ∈ (craft_script g w issue t).1.ueba.alerts := by
  unfold craft_script
  dsimp only
  split
  · exact log_alerts_mono _ _ _ _ _ _ _
      (by rw [popTs_ueba]
          exact log_alerts_mono _ _ _ _ _ _ _ (by rw [popTs_ueba]; exact h))
  · exact log_alerts_mono _ _ _ _ _ _ _ (by rw [popTs_ueba]; exact h)

end GeminiVoiceAgent

namespace GeminiVoiceAgent

theorem craft_script_unauthorized (g : Agent) (w : VoiceWorld)
    (issue : PredictedIssue) (t : Telematics) :
    ∃ a ∈ (craft_script g w issue t).1.ueba.alerts,
      a.severity = "high" ∧ a.actor = "voice" ∧
      a.reason = "Unauthorized resource: issue:read" := by
  have hna : "issue:read" ∉ UEBAGuard.allowGet "voice" := by decide
  unfold craft_script
  dsimp only
  split
  · obtain ⟨a, ha, h1, h2, h3⟩ :=
      log_unauthorized_mem (popTs w).2.ueba (popTs w).1 "voice" "read"
        "issue:read" [("component", .s issue.component)] hna
    exact ⟨a, log_alerts_mono _ _ _ _ _ _ _ (by rw [popTs_ueba]; exact ha),
           h1, h2, h3⟩
  · obtain ⟨a, ha, h1, h2, h3⟩ :=
      log_unauthorized_mem (popTs w).2.ueba (popTs w).1 "voice" "read"
        "issue:read" [("component", .s issue.component)] hna
    exact ⟨a, ha, h1, h2, h3⟩

theorem call_owner_alerts_mono (g : Agent) (w : VoiceWorld)
    (vid : String) (script : VoiceScript) (a : UEBAAlert)
    (h : a ∈ w.ueba.alerts) :
    a ∈ (call_owner g w vid script).1.ueba.alerts := by
  unfold call_owner
  dsimp only
  apply log_alerts_mono
  rw [popTs_ueba, popRand_ueba]
  apply log_alerts_mono
  rw [popTs_ueba]
  exact h

theorem countHigh_craft_script (g : Agent) (w : VoiceWorld)
    (issue : PredictedIssue) (t : Telematics) :
    countHigh (craft_script g w issue t).1.ueba.alerts =
      countHigh w.ueba.alerts + (if g.gemini_available then 2 else 1) := by
  unfold craft_script
  dsimp only
  split
  · rename_i hg
    rw [countHigh_log, popTs_ueba, countHigh_log, popTs_ueba]
    simp [hg, (by decide : "gemini:generate" ∉ UEBAGuard.allowGet "voice"),
          (by decide : "issue:read" ∉ UEBAGuard.allowGet "voice")]
  · rename_i hg
    rw [countHigh_log, popTs_ueba]
    simp [hg, (by decide : "issue:read" ∉ UEBAGuard.allowGet "voice")]

theorem countHigh_call_owner (g : Agent) (w : VoiceWorld)
    (vid : String) (script : VoiceScript) :
    countHigh (call_owner g w vid script).1.ueba.alerts =
      countHigh w.ueba.alerts + 2 := by
  unfold call_owner
  dsimp only
  rw [countHigh_log, popTs_ueba, popRand_ueba, countHigh_log, popTs_ueba]
  simp [(by decide : "owner:call" ∉ UEBAGuard.allowGet "voice"),
        (by decide : "call:result" ∉ UEBAGuard.allowGet "voice")]

end GeminiVoiceAgent

namespace GeminiVoiceAgent

theorem voice_phase_unauthorized (g : Agent) (w : VoiceWorld)
    (issue : PredictedIssue) (t : Telematics) (vid : String) :
    ∃ a ∈ (call_owner g (craft_script g w issue t).1 vid
             (craft_script g w issue t).2).1.ueba.alerts,
      a.severity = "high" ∧ a.actor = "voice" ∧
      a.reason = "Unauthorized resource: issue:read" := by
  obtain ⟨a, ha, h1, h2, h3⟩ := craft_script_unauthorized g w issue t
  exact ⟨a, call_owner_alerts_mono _ _ _ _ _ ha, h1, h2, h3⟩

end GeminiVoiceAgent

theorem run_gemini_unauthorized (g : GeminiVoiceAgent.Agent)
    (c : Collaborators) (t : Telematics) (w : GeminiVoiceAgent.VoiceWorld)
    (h : mkRat 2 5 ≤ (c.predict t).risk_score) :
    ∃ a ∈ (MasterAgent.process_telematics_gemini g c t w).2.ueba.alerts,
      a.severity = "high" ∧ a.actor = "voice" ∧
      a.reason = "Unauthorized resource: issue:read" := by
  unfold MasterAgent.process_telematics_gemini
  try dsimp only
  by_cases hc : (c.predict t).risk_score ≥ MasterAgent.CRITICAL_THRESHOLD
  · rw [if_pos hc]
    try dsimp only
    exact GeminiVoiceAgent.voice_phase_unauthorized g _ (c.predict t) t _
  · rw [if_neg hc]
    by_cases hh : (c.predict t).risk_score ≥ MasterAgent.HIGH_THRESHOLD
    · rw [if_pos hh]
      try dsimp only
      split
      · split
        · try dsimp only
          exact GeminiVoiceAgent.voice_phase_unauthorized g _ (c.predict t) t _
        · try dsimp only
          exact GeminiVoiceAgent.voice_phase_unauthorized g _ (c.predict t) t _
      · try dsimp only
        exact GeminiVoiceAgent.voice_phase_unauthorized g _ (c.predict t) t _
    · rw [if_neg hh]
      rw [if_pos (by unfold MasterAgent.MEDIUM_THRESHOLD; exact h)]
      try dsimp only
      exact GeminiVoiceAgent.craft_script_unauthorized g _ (c.predict t) t

/-- C10: the "voice" actor's allow-list is {owner:contact, summary:read},
and the voice agent logs itself against issue:read (craft_script) and
owner:call / call:result (call_owner), none of which it is allowed — so
every craft_script invocation appends a high-severity unauthorized-resource
alert (exactly one in fallback mode), every call_owner invocation appends
exactly two, and every MasterAgent run at tier MEDIUM or above (risk score
≥ 0.4) ends with an unauthorized-access alert from the voice agent in the
alert stream. -/
theorem C10_voice_agent_unauthorized_alerts (g : GeminiVoiceAgent.Agent)
    (w : GeminiVoiceAgent.VoiceWorld) (issue : PredictedIssue)
    (t : Telematics) (vid : String) (script : VoiceScript)
    (c : Collaborators) (w' : GeminiVoiceAgent.VoiceWorld) :
    UEBAGuard.allowGet "voice" = ["owner:contact", "summary:read"] ∧
    "issue:read" ∉ UEBAGuard.allowGet "voice" ∧
    "owner:call" ∉ UEBAGuard.allowGet "voice" ∧
    "call:result" ∉ UEBAGuard.allowGet "voice" ∧
    (¬ g.gemini_available →
       countHigh (GeminiVoiceAgent.craft_script g w issue t).1.ueba.alerts =
         countHigh w.ueba.alerts + 1) ∧
    countHigh (GeminiVoiceAgent.craft_script g w issue t).1.ueba.alerts ≥
      countHigh w.ueba.alerts + 1 ∧
    countHigh (GeminiVoiceAgent.call_owner g w vid script).1.ueba.alerts =
      countHigh w.ueba.alerts + 2 ∧
    (mkRat 2 5 ≤ (c.predict t).risk_score →
       ∃ a ∈ (MasterAgent.process_telematics_gemini g c t w').2.ueba.alerts,
         a.severity = "high" ∧ a.actor = "voice" ∧
         a.reason = "Unauthorized resource: issue:read") := by
  refine ⟨by decide, by decide, by decide, by decide, ?_, ?_, ?_, ?_⟩
  · intro hng
    have hg : g.gemini_available = false := by
      revert hng
      cases g.gemini_available <;> simp
    rw [GeminiVoiceAgent.countHigh_craft_script, hg]
    simp
  · rw [GeminiVoiceAgent.countHigh_craft_script]
    cases g.gemini_available <;> simp
  · exact GeminiVoiceAgent.countHigh_call_owner g w vid script
  · exact run_gemini_unauthorized g c t w'

/-- Witness for C10: a fallback-mode run at risk 0.5 (tier MEDIUM) over
fresh audit streams ends with a high-severity unauthorized-access alert
from the voice actor about issue:read. -/
theorem C10_voice_agent_unauthorized_alerts_witness :
    ∃ a ∈ (MasterAgent.process_telematics_gemini
        { gemini_available := false, gemini_text := fun _ _ => "" }
        (demoCollaborators (mkRat 1 2) true ["A"]) demoTelematics
        { ueba := ueba0, clock := [], rands := [] }).2.ueba.alerts,
      a.severity = "high" ∧ a.actor = "voice" ∧
      a.reason = "Unauthorized resource: issue:read" :=
  (C10_voice_agent_unauthorized_alerts
    { gemini_available := false, gemini_text := fun _ _ => "" }
    { ueba := ueba0, clock := [], rands := [] } default demoTelematics "V"
    default (demoCollaborators (mkRat 1 2) true ["A"])
    { ueba := ueba0, clock := [], rands := [] }).2.2.2.2.2.2.2 (by decide)
